import Mathlib

/-!
Shallow embedding of the blood-bank decision-support backend
(`blood_bank_mvp/model1_prediction.py`, `model2_matching.py`,
`model3_analytics.py`).

Numeric values are embedded as exact rationals (the Python code uses
floats with short decimal literals; all formulas are closed-form
arithmetic), except the haversine geodistance, which needs real
trigonometric functions and is embedded over `ℝ`.

Dates are abstracted to integer day counts: a donor's
`last_donation_date` string becomes `Option ℤ` (the number of days since
the last donation, `none` when the stored string is missing or fails to
parse as `YYYY-MM-DD`), and an event's `event_date` becomes its offset in
days from "now".
-/

/-- `MatchingEngine._get_compatible_blood_types`: donor blood types that can
donate to the given requested type, from the fixed compatibility dictionary;
an unknown type falls back to the singleton list holding the type itself. -/
def get_compatible_blood_types (blood_type : String) : List String :=
  if blood_type = "O-" then ["O-"]
  else if blood_type = "O+" then ["O-", "O+"]
  else if blood_type = "A-" then ["O-", "A-"]
  else if blood_type = "A+" then ["O-", "O+", "A-", "A+"]
  else if blood_type = "B-" then ["O-", "B-"]
  else if blood_type = "B+" then ["O-", "O+", "B-", "B+"]
  else if blood_type = "AB-" then ["O-", "A-", "B-", "AB-"]
  else if blood_type = "AB+" then ["O-", "O+", "A-", "A+", "B-", "B+", "AB-", "AB+"]
  else [blood_type]

/-- The 8-member ABO/Rh blood-type universe (the keys of the
compatibility dictionary). -/
def allBloodTypes : List String :=
  ["O-", "O+", "A-", "A+", "B-", "B+", "AB-", "AB+"]

/-- One donor row, as selected from the `donors` table. The stored
`last_donation_date` string is abstracted to `days_since_donation`
(see the module comment). -/
structure Donor where
  donor_id : String
  blood_type : String
  location_lat : ℚ
  location_lng : ℚ
  days_since_donation : Option ℤ
  is_available : Bool

/-- One entry of the matched-donor list built by `match_donors`. -/
structure MatchedDonor where
  donor : Donor
  distance_km : ℚ
  matching_score : ℚ

/-- The dictionary `MatchingEngine.match_donors` returns (minus the
timestamp-derived `request_id`, which is pure I/O). The empty-result
branch carries `message` and no `urgency_level`; the non-empty branch
carries `urgency_level` and no `message`. -/
structure MatchResult where
  matched_donors : List MatchedDonor
  total_matches : ℕ
  message : Option String
  urgency_level : Option String

/-- One aggregated row of the `inventory_movements` GROUP BY
(hospital_id, blood_type) query in `AnalyticsEngine.calculate_waste_rates`. -/
structure MovementGroup where
  hospital_id : String
  blood_type : String
  total_collected : ℚ
  total_used : ℚ
  total_expired : ℚ

/-- One row of the `events` table; `event_date` is abstracted to its
offset in days from "now". -/
structure Event where
  days_from_now : ℤ
  impact_level : ℚ

/-- `MatchingEngine._calculate_matching_score`. `days_since_donation` is
`some d` when `last_donation` parses and is `d` days in the past, `none`
when parsing raises (the `except` branch of the source). -/
def calculate_matching_score (donor_blood_type needed_blood_type : String)
    (distance : ℚ) (days_since_donation : Option ℤ) (urgency : String) : ℚ :=
  let blood_score : ℚ :=
    if donor_blood_type = needed_blood_type then 1.0
    else if donor_blood_type ∈ get_compatible_blood_types needed_blood_type then 0.7
    else 0.0
  let distance_score : ℚ :=
    if distance ≤ 5 then 1.0
    else if distance ≤ 10 then 0.7
    else if distance ≤ 20 then 0.4
    else max 0.1 (1.0 - distance / 100)
  let donation_score : ℚ :=
    match days_since_donation with
    | some days_since =>
        if days_since ≥ 90 then 1.0
        else if days_since ≥ 56 then 0.8
        else 0.3
    | none => 0.5
  let urgency_multiplier : ℚ :=
    if urgency = "CRITICAL" then 1.2
    else if urgency = "HIGH" then 1.1
    else if urgency = "MEDIUM" then 1.0
    else if urgency = "LOW" then 0.9
    else 1.0
  min ((blood_score * 0.4 + distance_score * 0.3 + donation_score * 0.2 + 0.1)
      * urgency_multiplier) 1.0

/-- The blood-type term as the specification words it: 1.0 on exact
match, 0.7 when the donor type is in the compatibility set of the
requested type, 0.0 otherwise. -/
def specBloodScore (donorType requestedType : String) : ℚ :=
  if donorType = requestedType then 1.0
  else if donorType ∈ get_compatible_blood_types requestedType then 0.7
  else 0.0

/-- The distance term as the specification words it. -/
def specDistanceScore (distance : ℚ) : ℚ :=
  if distance ≤ 5 then 1.0
  else if distance ≤ 10 then 0.7
  else if distance ≤ 20 then 0.4
  else max 0.1 (1.0 - distance / 100)

/-- The recency term as the specification words it: 1.0 when at least 90
days since the last donation, 0.8 when at least 56, 0.3 otherwise, and a
neutral 0.5 when the date is missing or unparseable. -/
def specRecencyScore (days_since_donation : Option ℤ) : ℚ :=
  match days_since_donation with
  | some d => if 90 ≤ d then 1.0 else if 56 ≤ d then 0.8 else 0.3
  | none => 0.5

/-- The urgency multiplier as the specification words it. -/
def specUrgencyMultiplier (urgency : String) : ℚ :=
  if urgency = "CRITICAL" then 1.2
  else if urgency = "HIGH" then 1.1
  else if urgency = "MEDIUM" then 1.0
  else if urgency = "LOW" then 0.9
  else 1.0

/-- `PredictionEngine._calculate_risk`: the substituted usage value
(1 instead of 0, preventing division by zero). -/
def effective_usage (avg_daily_usage : ℚ) : ℚ :=
  if avg_daily_usage = 0 then 1 else avg_daily_usage

/-- `days_remaining = current_units / avg_daily_usage` after the
zero-usage substitution. -/
def days_remaining (current_units avg_daily_usage : ℚ) : ℚ :=
  current_units / effective_usage avg_daily_usage

/-- `PredictionEngine._calculate_risk`, restricted to risk score and
risk level (the two fields every claim is about). -/
def calculate_risk (current_units avg_daily_usage : ℚ) : ℚ × String :=
  let days := days_remaining current_units avg_daily_usage
  if days ≤ 3 then
    (min (0.90 + (3 - days) * 0.033) 1.0, "CRITICAL")
  else if days ≤ 7 then
    (0.60 + (7 - days) * 0.075, "HIGH")
  else if days ≤ 14 then
    (0.30 + (14 - days) * 0.043, "MEDIUM")
  else
    (max 0.10 (min 0.30 (30 / days)), "LOW")

/-- The shortage-risk assignment as the specification words it:
substitute 1 for a zero average usage, divide, then pick the tier and
score from the days-remaining thresholds. -/
def shortageRiskSpec (currentUnits avgDailyUsage : ℚ) : ℚ × String :=
  let usage := if avgDailyUsage = 0 then 1 else avgDailyUsage
  let daysRemaining := currentUnits / usage
  if daysRemaining ≤ 3 then
    (min (0.90 + (3 - daysRemaining) * 0.033) 1.0, "CRITICAL")
  else if daysRemaining ≤ 7 then
    (0.60 + (7 - daysRemaining) * 0.075, "HIGH")
  else if daysRemaining ≤ 14 then
    (0.30 + (14 - daysRemaining) * 0.043, "MEDIUM")
  else
    (max 0.10 (min 0.30 (30 / daysRemaining)), "LOW")

/-- Insertion step of a descending sort keyed by `key`. An element is
placed before the first strictly smaller key, so equal keys keep their
input order. This models `donors_df.sort_values('matching_score',
ascending=False)`; note pandas' default sort kind is `quicksort`, which
does not guarantee any order on ties, so tie stability is a property of
this model, not of the library call in the source. -/
def insert_desc {α : Type} (key : α → ℚ) (x : α) : List α → List α
  | [] => [x]
  | y :: ys => if key y < key x then x :: y :: ys else y :: insert_desc key x ys

/-- Descending insertion sort keyed by `key` (stable; see `insert_desc`). -/
def sort_desc {α : Type} (key : α → ℚ) : List α → List α
  | [] => []
  | x :: xs => insert_desc key x (sort_desc key xs)

/-- `MatchingEngine.match_donors` after the donor query: `donors` is the
result set of the compatible-type, `is_available = 1` SQL query, and
`dist` abstracts `_haversine_distance` (real-valued in the source,
embedded separately over `ℝ`; the pipeline only passes its result on). -/
def match_donors (dist : ℚ → ℚ → ℚ → ℚ → ℚ) (donors : List Donor)
    (blood_type : String) (units_needed : ℕ)
    (hospital_lat hospital_lng : ℚ) (urgency_level : String) : MatchResult :=
  if donors.isEmpty then
    { matched_donors := [], total_matches := 0,
      message := some "No available donors found", urgency_level := none }
  else
    let scored := donors.map fun d =>
      let d_km := dist hospital_lat hospital_lng d.location_lat d.location_lng
      { donor := d, distance_km := d_km,
        matching_score := calculate_matching_score d.blood_type blood_type d_km
          d.days_since_donation urgency_level : MatchedDonor }
    let ranked := sort_desc (fun m => m.matching_score) scored
    let top := ranked.take (min 10 (units_needed * 2))
    { matched_donors := top, total_matches := top.length,
      message := none, urgency_level := some urgency_level }

/-- `df['waste_rate'] = total_expired / (total_collected + 1)` in
`AnalyticsEngine.calculate_waste_rates` (the +1 avoids division by zero). -/
def waste_rate (g : MovementGroup) : ℚ :=
  g.total_expired / (g.total_collected + 1)

/-- The inner `get_status` of `AnalyticsEngine.calculate_waste_rates`. -/
def get_status (rate : ℚ) : String :=
  if rate < 0.05 then "LOW"
  else if rate < 0.10 then "ACCEPTABLE"
  else if rate < 0.20 then "HIGH"
  else "CRITICAL"

/-- The waste status tiers as the specification words them. -/
def specWasteStatus (rate : ℚ) : String :=
  if rate < 0.05 then "LOW"
  else if rate < 0.10 then "ACCEPTABLE"
  else if rate < 0.20 then "HIGH"
  else "CRITICAL"

/-- `overall_rate = df['total_expired'].sum() / (df['total_collected'].sum() + 1)`
over the filtered groups. -/
def overall_waste_rate (groups : List MovementGroup) : ℚ :=
  (groups.map fun g => g.total_expired).sum /
    ((groups.map fun g => g.total_collected).sum + 1)

/-- The SQL filter of the events query in `AnalyticsEngine.forecast_demand`:
`event_date BETWEEN date('now') AND date('now', '+30 days')`, i.e. an
offset between 0 and 30 days, hard-coded independently of the requested
forecast horizon. -/
def events_in_window (events : List Event) : List Event :=
  events.filter fun e => decide (0 ≤ e.days_from_now) && decide (e.days_from_now ≤ 30)

/-- The event-adjustment loop of `AnalyticsEngine.forecast_demand`:
`event_adjustment += avg_daily_demand * (impact_level - 1.0)` over every
event returned by the windowed query. -/
def event_adjustment (avg_daily_demand : ℚ) (events : List Event) : ℚ :=
  ((events_in_window events).map fun e => avg_daily_demand * (e.impact_level - 1.0)).sum

/-- `total_forecast = base_forecast + event_adjustment` with
`base_forecast = avg_daily_demand * days`. -/
def total_forecast (avg_daily_demand : ℚ) (days : ℚ) (events : List Event) : ℚ :=
  avg_daily_demand * days + event_adjustment avg_daily_demand events

/-- `AnalyticsEngine._calculate_trend`: a stub that always reports
STABLE. -/
def calculate_trend (hospital_id blood_type : String) : String := "STABLE"

/-- `math.radians`: degrees to radians. -/
noncomputable def radians (deg : ℝ) : ℝ := deg * Real.pi / 180

/-- `math.atan2(y, x)`: the two-argument arctangent. -/
noncomputable def atan2 (y x : ℝ) : ℝ :=
  if 0 < x then Real.arctan (y / x)
  else if x < 0 then
    (if 0 ≤ y then Real.arctan (y / x) + Real.pi else Real.arctan (y / x) - Real.pi)
  else
    (if 0 < y then Real.pi / 2 else if y < 0 then -(Real.pi / 2) else 0)

/-- The intermediate `a` of `MatchingEngine._haversine_distance`:
sin(dlat/2)^2 + cos(lat1)*cos(lat2)*sin(dlon/2)^2 on the
radian-converted inputs. -/
noncomputable def hav_a (lat1 lon1 lat2 lon2 : ℝ) : ℝ :=
  Real.sin ((radians lat2 - radians lat1) / 2) ^ 2 +
    Real.cos (radians lat1) * Real.cos (radians lat2) *
      Real.sin ((radians lon2 - radians lon1) / 2) ^ 2

/-- `MatchingEngine._haversine_distance`: R * c with R = 6371 km and
c = 2 * atan2(sqrt(a), sqrt(1 - a)). -/
noncomputable def haversine_distance (lat1 lon1 lat2 lon2 : ℝ) : ℝ :=
  6371 * (2 * atan2 (Real.sqrt (hav_a lat1 lon1 lat2 lon2))
    (Real.sqrt (1 - hav_a lat1 lon1 lat2 lon2)))

/-- C4: the compatibility lookup returns all 8 ABO/Rh types for AB+, the
singleton O- list for O-, and for any type outside the 8-member set the
singleton list holding only that type (fail-open). -/
theorem spec_C4 :
    get_compatible_blood_types "AB+" = allBloodTypes ∧
    get_compatible_blood_types "O-" = ["O-"] ∧
    ∀ t : String, t ∉ allBloodTypes → get_compatible_blood_types t = [t] := by
  refine ⟨rfl, rfl, ?_⟩
  intro t ht
  simp only [allBloodTypes, List.mem_cons, List.not_mem_nil, or_false, not_or] at ht
  obtain ⟨h1, h2, h3, h4, h5, h6, h7, h8⟩ := ht
  simp [get_compatible_blood_types, h1, h2, h3, h4, h5, h6, h7, h8]

/-- Witness for C4 at the concrete unknown type "XYZ". -/
theorem spec_C4_witness :
    "XYZ" ∉ allBloodTypes ∧ get_compatible_blood_types "XYZ" = ["XYZ"] :=
  ⟨by decide, spec_C4.2.2 "XYZ" (by decide)⟩

/-- The matching score, rewritten through the specification-side terms;
shared between the formula claim and the range claim. -/
lemma calculate_matching_score_eq (donor_bt needed_bt : String) (distance : ℚ)
    (days_since : Option ℤ) (urgency : String) :
    calculate_matching_score donor_bt needed_bt distance days_since urgency =
      min ((specBloodScore donor_bt needed_bt * 0.4 +
            specDistanceScore distance * 0.3 +
            specRecencyScore days_since * 0.2 + 0.1) *
           specUrgencyMultiplier urgency) 1.0 := by
  cases days_since <;>
    simp only [calculate_matching_score, specBloodScore, specDistanceScore,
      specRecencyScore, specUrgencyMultiplier, ge_iff_le]

/-- C1: the matching score is exactly the weighted sum
((bloodScore*0.4) + (distanceScore*0.3) + (recencyScore*0.2) + 0.1)
times the urgency multiplier, capped at 1.0, with each term as the
specification defines it. -/
theorem spec_C1 (donor_bt needed_bt : String) (distance : ℚ)
    (days_since : Option ℤ) (urgency : String) :
    calculate_matching_score donor_bt needed_bt distance days_since urgency =
      min ((specBloodScore donor_bt needed_bt * 0.4 +
            specDistanceScore distance * 0.3 +
            specRecencyScore days_since * 0.2 + 0.1) *
           specUrgencyMultiplier urgency) 1.0 :=
  calculate_matching_score_eq donor_bt needed_bt distance days_since urgency

lemma specBloodScore_nonneg (d n : String) : 0 ≤ specBloodScore d n := by
  unfold specBloodScore; split_ifs <;> norm_num

lemma specDistanceScore_nonneg (x : ℚ) : 0 ≤ specDistanceScore x := by
  unfold specDistanceScore
  split_ifs <;> norm_num

lemma specRecencyScore_nonneg (ds : Option ℤ) : 0 ≤ specRecencyScore ds := by
  cases ds with
  | none => norm_num [specRecencyScore]
  | some d =>
      simp only [specRecencyScore]
      split_ifs <;> norm_num

lemma specUrgencyMultiplier_nonneg (u : String) : 0 ≤ specUrgencyMultiplier u := by
  unfold specUrgencyMultiplier; split_ifs <;> norm_num

/-- C3: for nonnegative distance and any blood types, donation recency
and urgency value, the matching score lies in [0, 1]: the weighted sum is
a product of nonnegative factors, and the cap bounds it by 1. -/
theorem spec_C3 (donor_bt needed_bt : String) (distance : ℚ)
    (days_since : Option ℤ) (urgency : String) (hdist : 0 ≤ distance) :
    0 ≤ calculate_matching_score donor_bt needed_bt distance days_since urgency ∧
    calculate_matching_score donor_bt needed_bt distance days_since urgency ≤ 1 := by
  clear hdist
  rw [calculate_matching_score_eq]
  constructor
  · refine le_min ?_ (by norm_num)
    have hb := specBloodScore_nonneg donor_bt needed_bt
    have hd := specDistanceScore_nonneg distance
    have hr := specRecencyScore_nonneg days_since
    have hu := specUrgencyMultiplier_nonneg urgency
    have hsum : (0:ℚ) ≤ specBloodScore donor_bt needed_bt * 0.4 +
        specDistanceScore distance * 0.3 +
        specRecencyScore days_since * 0.2 + 0.1 := by nlinarith
    exact mul_nonneg hsum hu
  · exact le_trans (min_le_right _ _) (by norm_num)

/-- Witness for C3 at a concrete input. -/
theorem spec_C3_witness :
    (0:ℚ) ≤ 7 ∧
    (0 ≤ calculate_matching_score "O-" "A+" 7 (some 100) "CRITICAL" ∧
     calculate_matching_score "O-" "A+" 7 (some 100) "CRITICAL" ≤ 1) :=
  ⟨by norm_num, spec_C3 "O-" "A+" 7 (some 100) "CRITICAL" (by norm_num)⟩

/-- C5: the shortage estimator agrees everywhere with the
specification's tiered formula, and on the spec's two worked examples:
15 units at 3/day gives 5 days remaining, a HIGH tier and score 0.75;
8 units at 4/day gives 2 days remaining, a CRITICAL tier and score 0.933. -/
theorem spec_C5 :
    (∀ cu au : ℚ, 0 ≤ cu → 0 ≤ au → calculate_risk cu au = shortageRiskSpec cu au) ∧
    days_remaining 15 3 = 5 ∧ calculate_risk 15 3 = (0.75, "HIGH") ∧
    days_remaining 8 4 = 2 ∧ calculate_risk 8 4 = (0.933, "CRITICAL") := by
  refine ⟨fun cu au _ _ => rfl, ?_, ?_, ?_, ?_⟩
  · norm_num [days_remaining, effective_usage]
  · norm_num [calculate_risk, days_remaining, effective_usage, Prod.mk.injEq]
  · norm_num [days_remaining, effective_usage]
  · norm_num [calculate_risk, days_remaining, effective_usage, Prod.mk.injEq]

/-- Witness for C5's universally quantified part at a concrete input. -/
theorem spec_C5_witness :
    (0:ℚ) ≤ 15 ∧ (0:ℚ) ≤ 3 ∧ calculate_risk 15 3 = shortageRiskSpec 15 3 :=
  ⟨by norm_num, by norm_num, spec_C5.1 15 3 (by norm_num) (by norm_num)⟩

/-- C10: for nonnegative inventory and usage, the (unrounded) risk score
lies in [0.10, 1]. -/
theorem spec_C10 (cu au : ℚ) (hcu : 0 ≤ cu) (hau : 0 ≤ au) :
    0.10 ≤ (calculate_risk cu au).1 ∧ (calculate_risk cu au).1 ≤ 1 := by
  have husage : 0 < effective_usage au := by
    unfold effective_usage
    split_ifs with h
    · norm_num
    · exact lt_of_le_of_ne hau (Ne.symm h)
  have hd : 0 ≤ days_remaining cu au := div_nonneg hcu husage.le
  simp only [calculate_risk]
  split_ifs with h1 h2 h3 <;> dsimp only
  · exact ⟨le_min (by nlinarith) (by norm_num),
      le_trans (min_le_right _ _) (by norm_num)⟩
  · constructor <;> nlinarith
  · constructor <;> nlinarith
  · refine ⟨le_max_left _ _, max_le (by norm_num) ?_⟩
    exact le_trans (min_le_left _ _) (by norm_num)

/-- Witness for C10 at a concrete input. -/
theorem spec_C10_witness :
    (0:ℚ) ≤ 8 ∧ (0:ℚ) ≤ 4 ∧
    (0.10 ≤ (calculate_risk 8 4).1 ∧ (calculate_risk 8 4).1 ≤ 1) :=
  ⟨by norm_num, by norm_num, spec_C10 8 4 (by norm_num) (by norm_num)⟩

/-- C7: with an empty donor query result, `match_donors` returns a
non-error result: empty matched list, zero total matches and the
message "No available donors found". -/
theorem spec_C7 (dist : ℚ → ℚ → ℚ → ℚ → ℚ) (blood_type : String)
    (units_needed : ℕ) (hospital_lat hospital_lng : ℚ) (urgency_level : String) :
    match_donors dist [] blood_type units_needed hospital_lat hospital_lng
        urgency_level =
      { matched_donors := [], total_matches := 0,
        message := some "No available donors found", urgency_level := none } :=
  rfl

/-- C8: per-group waste rate is expired/(collected+1); the status tiers
are LOW below 0.05, ACCEPTABLE below 0.10, HIGH below 0.20, CRITICAL
otherwise; the overall rate is the summed-expired over summed-collected
plus one; and the spec's worked example (collected 250, expired 15)
lands at 15/251 in the ACCEPTABLE tier. -/
theorem spec_C8 :
    (∀ g : MovementGroup, waste_rate g = g.total_expired / (g.total_collected + 1)) ∧
    (∀ r : ℚ, get_status r = specWasteStatus r) ∧
    (∀ groups : List MovementGroup, overall_waste_rate groups =
      (groups.map fun g => g.total_expired).sum /
        ((groups.map fun g => g.total_collected).sum + 1)) ∧
    waste_rate ⟨"H001", "A+", 250, 0, 15⟩ = 15 / 251 ∧
    get_status (15 / 251) = "ACCEPTABLE" := by
  refine ⟨fun g => rfl, fun r => rfl, fun groups => rfl, ?_, ?_⟩
  · norm_num [waste_rate]
  · norm_num [get_status]

/-- C9: the demand forecast is avg_daily_demand * days plus, per event
within the hard-coded next-30-days window, avg_daily_demand *
(impact_level - 1.0); the adjustment does not depend on the requested
horizon; and the reported trend is the constant "STABLE". -/
theorem spec_C9 :
    (∀ (avg days : ℚ) (events : List Event),
      total_forecast avg days events =
        avg * days +
          ((events.filter fun e =>
              decide (0 ≤ e.days_from_now) && decide (e.days_from_now ≤ 30)).map
            fun e => avg * (e.impact_level - 1.0)).sum) ∧
    (∀ (avg days days' : ℚ) (events : List Event),
      total_forecast avg days events - avg * days =
        total_forecast avg days' events - avg * days') ∧
    (∀ hospital_id blood_type : String,
      calculate_trend hospital_id blood_type = "STABLE") := by
  refine ⟨fun avg days events => rfl, fun avg days days' events => ?_, fun h b => rfl⟩
  simp only [total_forecast]
  ring

lemma mem_insert_desc {α : Type} (key : α → ℚ) (x b : α) (l : List α)
    (hb : b ∈ insert_desc key x l) : b = x ∨ b ∈ l := by
  induction l with
  | nil => simpa [insert_desc] using hb
  | cons y ys ih =>
      simp only [insert_desc] at hb
      split_ifs at hb with h
      · rcases List.mem_cons.mp hb with rfl | hb'
        · exact Or.inl rfl
        · exact Or.inr hb'
      · rcases List.mem_cons.mp hb with rfl | hb'
        · exact Or.inr (List.mem_cons_self b ys)
        · rcases ih hb' with rfl | hb''
          · exact Or.inl rfl
          · exact Or.inr (List.mem_cons_of_mem y hb'')

lemma sorted_insert_desc {α : Type} (key : α → ℚ) (x : α) (l : List α)
    (h : l.Sorted fun a b => key b ≤ key a) :
    (insert_desc key x l).Sorted fun a b => key b ≤ key a := by
  induction l with
  | nil => simp [insert_desc]
  | cons y ys ih =>
      rw [List.sorted_cons] at h
      simp only [insert_desc]
      split_ifs with hlt
      · rw [List.sorted_cons]
        refine ⟨?_, List.sorted_cons.mpr h⟩
        intro b hb
        rcases List.mem_cons.mp hb with rfl | hb'
        · exact le_of_lt hlt
        · exact le_trans (h.1 b hb') (le_of_lt hlt)
      · rw [List.sorted_cons]
        refine ⟨?_, ih h.2⟩
        intro b hb
        rcases mem_insert_desc key x b ys hb with rfl | hb'
        · exact not_lt.mp hlt
        · exact h.1 b hb'

lemma sorted_sort_desc {α : Type} (key : α → ℚ) (l : List α) :
    (sort_desc key l).Sorted fun a b => key b ≤ key a := by
  induction l with
  | nil => simp [sort_desc]
  | cons x xs ih => exact sorted_insert_desc key x (sort_desc key xs) ih

/-- Ranking part of the matching pipeline: the returned matched-donor
list is sorted in descending matching score and holds at most
min(10, units_needed*2) entries. (Tie order is a property of the
stable model of the sort; see `insert_desc`.) -/
theorem spec_C2_sorted (dist : ℚ → ℚ → ℚ → ℚ → ℚ) (donors : List Donor)
    (blood_type : String) (units_needed : ℕ)
    (hospital_lat hospital_lng : ℚ) (urgency_level : String) :
    (match_donors dist donors blood_type units_needed hospital_lat hospital_lng
        urgency_level).matched_donors.Sorted
      (fun a b => b.matching_score ≤ a.matching_score) ∧
    (match_donors dist donors blood_type units_needed hospital_lat hospital_lng
        urgency_level).matched_donors.length ≤ min 10 (units_needed * 2) := by
  simp only [match_donors]
  split_ifs with h
  · simp
  · dsimp only
    constructor
    · exact (sorted_sort_desc (fun m : MatchedDonor => m.matching_score) _).sublist
        (List.take_sublist _ _)
    · rw [List.length_take]
      exact min_le_left _ _

lemma arctan_nonneg_of_nonneg {x : ℝ} (hx : 0 ≤ x) : 0 ≤ Real.arctan x := by
  have h := Real.arctan_strictMono.monotone hx
  rwa [Real.arctan_zero] at h

lemma atan2_nonneg {y x : ℝ} (hy : 0 ≤ y) (hx : 0 ≤ x) : 0 ≤ atan2 y x := by
  unfold atan2
  rcases eq_or_lt_of_le hx with hx0 | hxpos
  · rw [← hx0]
    rw [if_neg (lt_irrefl (0:ℝ)), if_neg (lt_irrefl (0:ℝ))]
    split_ifs with hy1 hy2
    · linarith [Real.pi_pos]
    · linarith
    · exact le_refl 0
  · rw [if_pos hxpos]
    exact arctan_nonneg_of_nonneg (div_nonneg hy hxpos.le)

lemma hav_a_self (lat lon : ℝ) : hav_a lat lon lat lon = 0 := by
  simp [hav_a]

lemma hav_a_symm (lat1 lon1 lat2 lon2 : ℝ) :
    hav_a lat1 lon1 lat2 lon2 = hav_a lat2 lon2 lat1 lon1 := by
  simp only [hav_a]
  rw [(by ring : radians lat1 - radians lat2 = -(radians lat2 - radians lat1))]
  rw [(by ring : radians lon1 - radians lon2 = -(radians lon2 - radians lon1))]
  simp only [neg_div, Real.sin_neg]
  ring

/-- C6: the haversine distance (great-circle formula, Earth radius
6371 km) vanishes from a point to itself, is symmetric in its two
coordinate pairs, and is nonnegative everywhere. -/
theorem spec_C6 :
    (∀ lat lon : ℝ, haversine_distance lat lon lat lon = 0) ∧
    (∀ lat1 lon1 lat2 lon2 : ℝ,
      haversine_distance lat1 lon1 lat2 lon2 =
        haversine_distance lat2 lon2 lat1 lon1) ∧
    (∀ lat1 lon1 lat2 lon2 : ℝ, 0 ≤ haversine_distance lat1 lon1 lat2 lon2) := by
  refine ⟨?_, ?_, ?_⟩
  · intro lat lon
    rw [haversine_distance, hav_a_self]
    rw [Real.sqrt_zero, sub_zero, Real.sqrt_one]
    have h : atan2 0 1 = 0 := by norm_num [atan2, Real.arctan_zero]
    rw [h]
    ring
  · intro lat1 lon1 lat2 lon2
    rw [haversine_distance, haversine_distance, hav_a_symm]
  · intro lat1 lon1 lat2 lon2
    have h := atan2_nonneg (Real.sqrt_nonneg (hav_a lat1 lon1 lat2 lon2))
      (Real.sqrt_nonneg (1 - hav_a lat1 lon1 lat2 lon2))
    rw [haversine_distance]
    positivity
